import Mathlib

/-!
Verification of the apartment-bill-manager front-end
(`src/frontend/AptBillManagerFrontend.jsx`) against its specification.

The file shallowly embeds the fetch wrapper `apiCall` and the event
handlers of the React components as pure Lean functions.  Each handler is
modelled as a function from its input state (form-field values, the member
list, the cached token) and the reply of the backend to the observable result:
the list of HTTP requests it issues, the new component state, and the
notification message it sets.  Backend replies are values of `Outcome α`
(`ok` for a resolved `apiCall`, `thrown` for a rejected one); the wrapper
itself is modelled separately over raw HTTP responses.
-/

namespace AptBill

/-- A notification banner message: `type` is `"error"`, `"success"` or `""`,
`text` is the displayed string (empty text means no banner). -/
structure Message where
  type : String
  text : String
deriving DecidableEq, Repr

/-- Request bodies that the front-end serializes, one constructor per call
site (`JSON.stringify` of an object literal, or a `FormData` upload). -/
inductive ReqBody where
  | empty
  | otpRequest (email : String)
  | otpVerify (email otp : String)
  | addMember (email : String) (phoneNumber : Option String)
  | telegramRegister (flatNo telegramChatId : String)
  | fileUpload (fileName : String)
deriving DecidableEq, Repr

/-- An HTTP request as issued by `apiCall`: endpoint path (relative to the
API base URL), method, body, and whether a bearer token was attached. -/
structure Request where
  endpoint : String
  method : String
  body : ReqBody
  authenticated : Bool
deriving DecidableEq, Repr

/-- The JSON body of an HTTP response, modelled by the only field the
wrapper itself reads: the optional `detail` string of an error reply
(the error contract of the spec says `detail` is a string). -/
structure JsonBody where
  detail : Option String
deriving DecidableEq, Repr

/-- A raw HTTP response as seen by `apiCall`: status code, status text and
the JSON parse of the body (`none` when `response.json()` rejects). -/
structure HttpResponse where
  status : Nat
  statusText : String
  jsonBody : Option JsonBody
deriving DecidableEq, Repr

/-- Result of an `apiCall`: a resolved value (`ok none` is the `null`
returned for 204), a thrown `Error` carrying its message, or the rejection
of `response.json()` on an unparseable body. -/
inductive ApiResult where
  | ok (data : Option JsonBody)
  | thrown (msg : String)
  | parseFailure
deriving DecidableEq, Repr

/-- `response.ok` of the fetch API: status in the range 200-299. -/
def responseOk (status : Nat) : Bool :=
  200 ≤ status && status ≤ 299

/-- JavaScript `data.detail || fallback`: the fallback is used when
`detail` is absent or the empty string (both falsy). -/
def jsOrElse (detail : Option String) (fallback : String) : String :=
  match detail with
  | some d => if d = "" then fallback else d
  | none => fallback

/-- Shallow embedding of `apiCall` (lines 21-53): a 204 returns `null`;
otherwise the body is JSON-parsed first, then on a non-ok status an
`Error` is thrown whose message is `data.detail`, falling back to the text
`API Error: ` followed by the status text when `detail` is absent or falsy,
and on an ok status the parsed body is returned. -/
def apiCall (resp : HttpResponse) : ApiResult :=
  if resp.status = 204 then
    .ok none
  else
    match resp.jsonBody with
    | none => .parseFailure
    | some data =>
      if responseOk resp.status then
        .ok (some data)
      else
        .thrown (jsOrElse data.detail ("API Error: " ++ resp.statusText))

/-- The reply a handler receives from `await apiCall(...)`, typed by the
response shape of the endpoint: `ok` when the promise resolves, `thrown` when
`apiCall` threw (the string is `error.message`). -/
inductive Outcome (α : Type) where
  | ok (val : α)
  | thrown (msg : String)
deriving DecidableEq, Repr

/-! ## Notification banner (lines 57-77) -/

/-- The `useEffect` of the banner component (line 64): when a banner is
visible (non-empty text) it schedules a single timer that resets the
message to an empty type and empty text after 5000 ms; with no visible banner
the component returns early and no timer runs. -/
def notificationTimer (m : Message) : Option (Nat × Message) :=
  if m.text = "" then none else some (5000, ⟨"", ""⟩)

/-! ## Login component (lines 82-184) -/

/-- The `onChange` of the OTP input (line 159): non-digit characters are
stripped from the typed value (a regex replace keeping only `\d`).  The
raw value itself is bounded to 6 characters by the `maxLength={6}`
attribute of the input. -/
def otpInputValue (raw : String) : String :=
  String.mk (raw.data.filter Char.isDigit)

/-- The request issued by `handleRequestOtp` (line 96). -/
def otpRequestReq (email : String) : Request :=
  ⟨"/auth/otp/request", "POST", .otpRequest email, false⟩

/-- Result of `handleRequestOtp`: requests issued, new `otpMode` state,
and the message set (`none` would mean no `setMessage` call, which this
handler never does). -/
structure RequestOtpResult where
  requests : List Request
  otpMode : Bool
  message : Option Message
deriving DecidableEq, Repr

/-- Shallow embedding of `handleRequestOtp` (lines 88-104): empty email
is rejected locally; otherwise the OTP request is posted, success flips
to OTP-entry mode with a success banner, failure shows `error.message`. -/
def handleRequestOtp (email : String) (otpMode : Bool)
    (resp : Outcome Unit) : RequestOtpResult :=
  if email = "" then
    ⟨[], otpMode, some ⟨"error", "Please enter your committee email address."⟩⟩
  else
    match resp with
    | .ok _ =>
      ⟨[otpRequestReq email], true,
       some ⟨"success", "OTP request sent! Check your email: " ++ email⟩⟩
    | .thrown e => ⟨[otpRequestReq email], otpMode, some ⟨"error", e⟩⟩

/-- The `/auth/otp/verify` response body used by the handler:
`data.access_token`. -/
structure VerifyBody where
  accessToken : String
deriving DecidableEq, Repr

/-- The request issued by `handleVerifyOtp` (line 114). -/
def otpVerifyReq (email otp : String) : Request :=
  ⟨"/auth/otp/verify", "POST", .otpVerify email otp, false⟩

/-- Result of `handleVerifyOtp`: requests issued, the value written to
`localStorage` under `jwt_token` (`none` = no write), the resulting
`token` and `memberEmail` app state (both start unset on the login view),
and the message set. -/
structure VerifyResult where
  requests : List Request
  storedToken : Option String
  token : Option String
  memberEmail : String
  message : Option Message
deriving DecidableEq, Repr

/-- Shallow embedding of `handleVerifyOtp` (lines 106-124): a code whose
length is not 6 is rejected locally with no network call; otherwise the
verify request is posted with `{email, otp}`; on success the returned
`access_token` is persisted to local storage and becomes the token state,
and the member email state becomes the entered email. -/
def handleVerifyOtp (email otp : String)
    (resp : Outcome VerifyBody) : VerifyResult :=
  if otp.length ≠ 6 then
    ⟨[], none, none, "", some ⟨"error", "Please enter the 6-digit OTP."⟩⟩
  else
    match resp with
    | .ok data =>
      ⟨[otpVerifyReq email otp], some data.accessToken, some data.accessToken,
       email, some ⟨"success", "Access granted. Redirecting to Dashboard..."⟩⟩
    | .thrown e =>
      ⟨[otpVerifyReq email otp], none, none, "", some ⟨"error", e⟩⟩

/-! ## Settings component: committee management (lines 188-326) -/

/-- A committee member as returned by `GET /auth/members`:
`{id, email, phone_number}`. -/
structure Member where
  id : Nat
  email : String
  phoneNumber : Option String
deriving DecidableEq, Repr

/-- The request issued by `fetchMembers` (line 197). -/
def getMembersReq : Request :=
  ⟨"/auth/members", "GET", .empty, true⟩

/-- Result of `fetchMembers`: the request issued, the resulting `members`
state and the message set (`none` = no `setMessage` call). -/
structure FetchResult where
  requests : List Request
  members : List Member
  message : Option Message
deriving DecidableEq, Repr

/-- Shallow embedding of `fetchMembers` (lines 194-204): the list is
fetched from `GET /auth/members`; on success `setMembers(data)` replaces
the state with the response body, on failure the state is left unchanged
and an error banner is shown. -/
def fetchMembers (members : List Member)
    (getResp : Outcome (List Member)) : FetchResult :=
  match getResp with
  | .ok data => ⟨[getMembersReq], data, none⟩
  | .thrown e =>
    ⟨[getMembersReq], members,
     some ⟨"error", "Failed to load committee members: " ++ e⟩⟩

/-- The request issued by `handleAddMember` (line 217): the body carries
`{email, phone_number: newPhone || null}`. -/
def addMemberReq (newEmail newPhone : String) : Request :=
  ⟨"/auth/members", "POST",
   .addMember newEmail (if newPhone = "" then none else some newPhone), true⟩

/-- Result of `handleAddMember`: requests issued (in order), the resulting
`members` state, the resulting input-field states, and the final banner
message. -/
structure AddResult where
  requests : List Request
  members : List Member
  newEmail : String
  newPhone : String
  message : Option Message
deriving DecidableEq, Repr

/-- Shallow embedding of `handleAddMember` (lines 210-227): an empty email
is rejected locally with no network call; otherwise the member is posted;
on success the fields are cleared and `fetchMembers()` re-fetches the list
(the final banner is the fetch error if that re-fetch fails, else the
success message); on failure the fields and list are unchanged and the
error is shown prefixed with `Failed to add member: `. -/
def handleAddMember (newEmail newPhone : String) (members : List Member)
    (postResp : Outcome Unit)
    (getResp : Outcome (List Member)) : AddResult :=
  if newEmail = "" then
    ⟨[], members, newEmail, newPhone, some ⟨"error", "Email is required."⟩⟩
  else
    match postResp with
    | .ok _ =>
      let f := fetchMembers members getResp
      ⟨addMemberReq newEmail newPhone :: f.requests, f.members, "", "",
       match f.message with
       | some m => some m
       | none =>
         some ⟨"success", "Member " ++ newEmail ++ " added successfully."⟩⟩
    | .thrown e =>
      ⟨[addMemberReq newEmail newPhone], members, newEmail, newPhone,
       some ⟨"error", "Failed to add member: " ++ e⟩⟩

/-- The request issued by `handleRemoveMember` (line 242). -/
def removeMemberReq (memberId : Nat) : Request :=
  ⟨"/auth/members/" ++ toString memberId, "DELETE", .empty, true⟩

/-- Result of `handleRemoveMember`: requests issued, resulting `members`
state, and the message set (`none` = no `setMessage` call, as on a
declined confirmation). -/
structure RemoveResult where
  requests : List Request
  members : List Member
  message : Option Message
deriving DecidableEq, Repr

/-- Shallow embedding of `handleRemoveMember` (lines 229-250).  Its
parameter `memberEmail` shadows the session-email prop of the component,
which has the same name, so the own-account guard compares the parameter to
itself (`memberEmail === memberEmail`, line 234); the embedding reproduces
that comparison verbatim.  After the guards, a declined window-confirm
aborts silently; otherwise the DELETE is issued and the list re-fetched. -/
def handleRemoveMember (members : List Member) (memberId : Nat)
    (memberEmail : String) (confirmed : Bool) (deleteResp : Outcome Unit)
    (getResp : Outcome (List Member)) : RemoveResult :=
  if members.length ≤ 1 then
    ⟨[], members,
     some ⟨"error", "Cannot remove: A minimum of 1 member is required."⟩⟩
  else if memberEmail = memberEmail then
    ⟨[], members, some ⟨"error", "Cannot remove your own account."⟩⟩
  else if ¬confirmed then
    ⟨[], members, none⟩
  else
    match deleteResp with
    | .ok _ =>
      let f := fetchMembers members getResp
      ⟨removeMemberReq memberId :: f.requests, f.members,
       match f.message with
       | some m => some m
       | none => some ⟨"success", memberEmail ++ " removed successfully."⟩⟩
    | .thrown e =>
      ⟨[removeMemberReq memberId], members,
       some ⟨"error", "Failed to remove member: " ++ e⟩⟩

/-- The render-time guard of the remove button (line 277): it is shown for
a list entry only when more than one member exists and the email of the
entry differs from the own email of the session (`memberEmail` prop). -/
def removeButtonShown (members : List Member) (sessionEmail : String)
    (entry : Member) : Bool :=
  members.length > 1 && entry.email ≠ sessionEmail

/-- The `disabled` condition of the add-member button (line 316):
loading, or already 5 members, or an empty email field. -/
def addButtonDisabled (isLoading : Bool) (memberCount : Nat)
    (newEmail : String) : Bool :=
  isLoading || memberCount ≥ 5 || newEmail = ""

/-- A click on the add-member button: a disabled button fires no handler
(no requests, no state change); an enabled one runs `handleAddMember`. -/
def addMemberClick (isLoading : Bool) (newEmail newPhone : String)
    (members : List Member) (postResp : Outcome Unit)
    (getResp : Outcome (List Member)) : AddResult :=
  if addButtonDisabled isLoading members.length newEmail then
    ⟨[], members, newEmail, newPhone, none⟩
  else
    handleAddMember newEmail newPhone members postResp getResp

/-! ## Dashboard component: bill generation (lines 331-488) -/

/-- The aggregate fields of the `/bill/generate` response body as read by the
handler and summary cards.  The `preview` rows (floating-point display
records iterated only by the render code) are not modelled: no handler
branch or claim depends on them. -/
structure BillBatch where
  totalRecordsProcessed : Nat
  notificationsReady : Nat
  skippedRecords : Nat
deriving DecidableEq, Repr

/-- The request issued by `handleGenerateBills` (line 353): a multipart
`FormData` upload carrying the selected file. -/
def generateBillsReq (fileName : String) : Request :=
  ⟨"/bill/generate", "POST", .fileUpload fileName, true⟩

/-- Result of `handleGenerateBills`: requests issued, resulting
`billPreview` and `file` states, and the message set. -/
structure GenerateResult where
  requests : List Request
  billPreview : Option BillBatch
  file : Option String
  message : Option Message
deriving DecidableEq, Repr

/-- Shallow embedding of `handleGenerateBills` (lines 341-365): with no
file selected the upload is rejected locally; otherwise the file is
posted; on success the preview is stored, the file input cleared and a
success banner shown; on failure `error.message` is shown verbatim. -/
def handleGenerateBills (file : Option String)
    (resp : Outcome BillBatch) : GenerateResult :=
  match file with
  | none => ⟨[], none, none, some ⟨"error", "Please select an Excel file first."⟩⟩
  | some f =>
    match resp with
    | .ok data =>
      ⟨[generateBillsReq f], some data, none,
       some ⟨"success", "Processing complete. " ++
         toString data.notificationsReady ++
         " notifications sent via Telegram in background."⟩⟩
    | .thrown e => ⟨[generateBillsReq f], none, some f, some ⟨"error", e⟩⟩

/-! ## Registration component: Telegram linking (lines 492-557) -/

/-- The request issued by `handleRegister` (line 506): body
`{flat_no, telegram_chat_id}`, no bearer token. -/
def registerReq (flatNo chatId : String) : Request :=
  ⟨"/bill/telegram/register", "POST", .telegramRegister flatNo chatId, false⟩

/-- Result of `handleRegister`: requests issued, resulting `flatNo` and
`chatId` field states, and the message set. -/
structure RegisterResult where
  requests : List Request
  flatNo : String
  chatId : String
  message : Option Message
deriving DecidableEq, Repr

/-- Shallow embedding of `handleRegister` (lines 497-515): either field
empty is rejected locally; otherwise the link is posted; on success both
fields are cleared with a success banner; on failure both fields are left
unchanged and the error is shown wrapped in the registration-failed
text. -/
def handleRegister (flatNo chatId : String)
    (resp : Outcome Unit) : RegisterResult :=
  if flatNo = "" ∨ chatId = "" then
    ⟨[], flatNo, chatId,
     some ⟨"error", "Flat No and Telegram Chat ID are required."⟩⟩
  else
    match resp with
    | .ok _ =>
      ⟨[registerReq flatNo chatId], "", "",
       some ⟨"success", "Success! Flat " ++ flatNo ++
         " is now linked to receive bills via Telegram."⟩⟩
    | .thrown e =>
      ⟨[registerReq flatNo chatId], flatNo, chatId,
       some ⟨"error", "Registration failed: " ++ e ++
         ". Ensure your Flat No is correct."⟩⟩

/-! ## App component: startup revalidation and routing (lines 561-626) -/

/-- The `/auth/me` response body as read by the startup effect:
`member.email`. -/
structure MeBody where
  email : String
deriving DecidableEq, Repr

/-- The request issued by the startup effect (line 572). -/
def meReq : Request :=
  ⟨"/auth/me", "GET", .empty, true⟩

/-- JavaScript truthiness of the token state: `null` (no cached value)
and the empty string are falsy. -/
def tokenTruthy : Option String → Bool
  | none => false
  | some t => t ≠ ""

/-- The routing effect (lines 589-597): once auth loading finishes, the
page is the dashboard when both the token and the member email are truthy,
and the login view otherwise. -/
def pageAfterAuth (token : Option String) (memberEmail : String) : String :=
  if tokenTruthy token && memberEmail ≠ "" then "dashboard" else "login"

/-- Result of the startup effect: the request issued, the `jwt_token`
slot of local storage afterwards, the resulting `token` and `memberEmail`
states, and the page shown once loading finishes. -/
structure StartupResult where
  requests : List Request
  storedToken : Option String
  token : Option String
  memberEmail : String
  page : String
deriving DecidableEq, Repr

/-- Shallow embedding of the startup effect (lines 568-586) combined with
the routing effect: a truthy cached token is revalidated against
`GET /auth/me`; on success it is kept and the member email taken from the
response; on failure the cached token is removed from storage and the
token state cleared, which routes back to the login view.  With no truthy
cached token no call is made. -/
def startupAuth (stored : Option String)
    (meResp : Outcome MeBody) : StartupResult :=
  if tokenTruthy stored then
    match meResp with
    | .ok member =>
      ⟨[meReq], stored, stored, member.email, pageAfterAuth stored member.email⟩
    | .thrown _ => ⟨[meReq], none, none, "", pageAfterAuth none ""⟩
  else
    ⟨[], stored, stored, "", pageAfterAuth stored ""⟩

/-! ## Theorems -/

/-- C2: for every `apiCall` response, a 204 resolves to the empty success
value `null`; a non-2xx status with a parseable JSON body carrying a
non-empty `detail` string throws an error whose message is exactly that
`detail` string; and any other 2xx status with a parseable body resolves
to the parsed JSON body. -/
theorem c2_apiCall_error_contract (resp : HttpResponse) :
    (resp.status = 204 → apiCall resp = .ok none) ∧
    (∀ data d, resp.status ≠ 204 → responseOk resp.status = false →
      resp.jsonBody = some data → data.detail = some d → d ≠ "" →
      apiCall resp = .thrown d) ∧
    (∀ data, resp.status ≠ 204 → responseOk resp.status = true →
      resp.jsonBody = some data → apiCall resp = .ok (some data)) := by
  refine ⟨?_, ?_, ?_⟩ <;> intros <;> simp_all [apiCall, jsOrElse]

/-- Witness for C2 at concrete responses: a 204, a 422 carrying
`detail`, and a plain 200. -/
theorem c2_apiCall_error_contract_witness :
    apiCall ⟨204, "No Content", none⟩ = .ok none ∧
    apiCall ⟨422, "Unprocessable Entity", some ⟨some "Invalid OTP"⟩⟩ =
      .thrown "Invalid OTP" ∧
    apiCall ⟨200, "OK", some ⟨none⟩⟩ = .ok (some ⟨none⟩) :=
  ⟨(c2_apiCall_error_contract ⟨204, "No Content", none⟩).1 rfl,
   (c2_apiCall_error_contract ⟨422, "Unprocessable Entity",
      some ⟨some "Invalid OTP"⟩⟩).2.1 ⟨some "Invalid OTP"⟩ "Invalid OTP"
      (by decide) (by decide) rfl rfl (by decide),
   (c2_apiCall_error_contract ⟨200, "OK", some ⟨none⟩⟩).2.2 ⟨none⟩
      (by decide) (by decide) rfl⟩

/-- C10: a non-2xx, non-204 response whose parseable JSON body lacks a
`detail` field throws the fixed fallback message `API Error: ` followed
by the status text; and since the body is JSON-parsed before the status
check, a non-204 response with an unparseable body rejects with the parse
failure rather than any detail-based error. -/
theorem c10_apiCall_detail_fallback (resp : HttpResponse) :
    (∀ data, resp.status ≠ 204 → responseOk resp.status = false →
      resp.jsonBody = some data → data.detail = none →
      apiCall resp = .thrown ("API Error: " ++ resp.statusText)) ∧
    (resp.jsonBody = none → resp.status ≠ 204 →
      apiCall resp = .parseFailure) := by
  constructor <;> intros <;> simp_all [apiCall, jsOrElse]

/-- Witness for C10 at concrete responses: a 500 with a detail-free JSON
body, and a 502 with an unparseable body. -/
theorem c10_apiCall_detail_fallback_witness :
    apiCall ⟨500, "Internal Server Error", some ⟨none⟩⟩ =
      .thrown "API Error: Internal Server Error" ∧
    apiCall ⟨502, "Bad Gateway", none⟩ = .parseFailure :=
  ⟨(c10_apiCall_detail_fallback ⟨500, "Internal Server Error",
      some ⟨none⟩⟩).1 ⟨none⟩ (by decide) (by decide) rfl rfl,
   (c10_apiCall_detail_fallback ⟨502, "Bad Gateway", none⟩).2 rfl
      (by decide)⟩

/-- C3: verifying with code `123456` for `admin@example.com` issues
exactly one request, the verify POST with body
`{email: "admin@example.com", otp: "123456"}`; on a success response
carrying a (truthy) `access_token` that token is written to the
`jwt_token` slot of local storage, and the routing effect applied to the
resulting token and member-email state shows the dashboard. -/
theorem c3_verify_otp_success_flow (t : String) (ht : t ≠ "") :
    (handleVerifyOtp "admin@example.com" "123456" (.ok ⟨t⟩)).requests =
      [otpVerifyReq "admin@example.com" "123456"] ∧
    (handleVerifyOtp "admin@example.com" "123456" (.ok ⟨t⟩)).storedToken =
      some t ∧
    pageAfterAuth (handleVerifyOtp "admin@example.com" "123456" (.ok ⟨t⟩)).token
      (handleVerifyOtp "admin@example.com" "123456" (.ok ⟨t⟩)).memberEmail =
      "dashboard" := by
  refine ⟨rfl, rfl, ?_⟩
  have h6 : "123456".length = 6 := by decide
  simp [handleVerifyOtp, pageAfterAuth, tokenTruthy, h6, ht]

/-- Witness for C3 with the concrete token `tok-123`. -/
theorem c3_verify_otp_success_flow_witness :
    (handleVerifyOtp "admin@example.com" "123456" (.ok ⟨"tok-123"⟩)).requests =
      [otpVerifyReq "admin@example.com" "123456"] ∧
    (handleVerifyOtp "admin@example.com" "123456" (.ok ⟨"tok-123"⟩)).storedToken =
      some "tok-123" ∧
    pageAfterAuth
      (handleVerifyOtp "admin@example.com" "123456" (.ok ⟨"tok-123"⟩)).token
      (handleVerifyOtp "admin@example.com" "123456" (.ok ⟨"tok-123"⟩)).memberEmail =
      "dashboard" :=
  c3_verify_otp_success_flow "tok-123" (by decide)

/-- C4: a verify attempt with a code whose length is not 6 issues no
request and only sets the error banner; the OTP field state, produced by
the stripping `onChange`, holds digit characters only, and under the
`maxLength={6}` bound on the raw input it holds at most 6 of them — so a
length-6 field value is exactly a 6-digit code. -/
theorem c4_otp_verify_requires_six_digits :
    (∀ email otp resp, otp.length ≠ 6 →
      (handleVerifyOtp email otp resp).requests = [] ∧
      (handleVerifyOtp email otp resp).message =
        some ⟨"error", "Please enter the 6-digit OTP."⟩) ∧
    (∀ raw, (otpInputValue raw).data.all Char.isDigit = true) ∧
    (∀ raw, raw.length ≤ 6 → (otpInputValue raw).length ≤ 6) := by
  refine ⟨?_, ?_, ?_⟩
  · intro email otp resp h
    constructor <;> simp [handleVerifyOtp, h]
  · intro raw
    simp only [otpInputValue, List.all_eq_true]
    intro c hc
    exact (List.mem_filter.mp hc).2
  · intro raw h
    calc (otpInputValue raw).length = (raw.data.filter Char.isDigit).length := rfl
      _ ≤ raw.data.length := raw.data.length_filter_le Char.isDigit
      _ = raw.length := rfl
      _ ≤ 6 := h

/-- Witness for C4: a 5-character code is rejected without a request, and
a 6-character raw input with interspersed letters sanitizes to at most 6
digits. -/
theorem c4_otp_verify_requires_six_digits_witness :
    (handleVerifyOtp "admin@example.com" "12345" (.ok ⟨"tok"⟩)).requests = [] ∧
    (handleVerifyOtp "admin@example.com" "12345" (.ok ⟨"tok"⟩)).message =
      some ⟨"error", "Please enter the 6-digit OTP."⟩ ∧
    (otpInputValue "1a2b3c").data.all Char.isDigit = true ∧
    (otpInputValue "1a2b3c").length ≤ 6 :=
  ⟨(c4_otp_verify_requires_six_digits.1 "admin@example.com" "12345"
      (.ok ⟨"tok"⟩) (by decide)).1,
   (c4_otp_verify_requires_six_digits.1 "admin@example.com" "12345"
      (.ok ⟨"tok"⟩) (by decide)).2,
   c4_otp_verify_requires_six_digits.2.1 "1a2b3c",
   c4_otp_verify_requires_six_digits.2.2 "1a2b3c" (by decide)⟩

/-- C1: evaluation at a concrete non-self removal.  With two members,
session email `a@example.com` and target `b@example.com`, the remove
button is rendered for the target, yet a confirmed click on it issues no
DELETE request and is rejected with the own-account error: the guard on
line 234 compares the shadowing parameter `memberEmail` to itself, so the
handler blocks every removal instead of only self-removals. -/
theorem c1_remove_nonself_blocked_eval :
    removeButtonShown
      [⟨1, "a@example.com", none⟩, ⟨2, "b@example.com", none⟩]
      "a@example.com" ⟨2, "b@example.com", none⟩ = true ∧
    (handleRemoveMember
      [⟨1, "a@example.com", none⟩, ⟨2, "b@example.com", none⟩]
      2 "b@example.com" true (.ok ())
      (.ok [⟨1, "a@example.com", none⟩])).requests = [] ∧
    (handleRemoveMember
      [⟨1, "a@example.com", none⟩, ⟨2, "b@example.com", none⟩]
      2 "b@example.com" true (.ok ())
      (.ok [⟨1, "a@example.com", none⟩])).message =
      some ⟨"error", "Cannot remove your own account."⟩ := by
  decide

/-- C5: the add-member control is disabled whenever the member count is
at least 5 or the email field is empty, and a click then issues no
request; with fewer than 5 members, a non-empty email and no load in
progress, the control is enabled and the click posts the new member to
the members endpoint. -/
theorem c5_add_member_guard (isLoading : Bool) (newEmail newPhone : String)
    (members : List Member) (postResp : Outcome Unit)
    (getResp : Outcome (List Member)) :
    (members.length ≥ 5 ∨ newEmail = "" →
      addButtonDisabled isLoading members.length newEmail = true ∧
      (addMemberClick isLoading newEmail newPhone members postResp
        getResp).requests = []) ∧
    (members.length < 5 → newEmail ≠ "" → isLoading = false →
      addButtonDisabled isLoading members.length newEmail = false ∧
      (addMemberClick isLoading newEmail newPhone members postResp
        getResp).requests.head? = some (addMemberReq newEmail newPhone)) := by
  constructor
  · intro h
    have hd : addButtonDisabled isLoading members.length newEmail = true := by
      rcases h with h | h <;> simp [addButtonDisabled, h]
    exact ⟨hd, by simp [addMemberClick, hd]⟩
  · intro h1 h2 h3
    have hd : addButtonDisabled isLoading members.length newEmail = false := by
      simp [addButtonDisabled, h2, h3, Nat.not_le.mpr h1]
    refine ⟨hd, ?_⟩
    cases postResp <;> simp [addMemberClick, hd, handleAddMember, h2]

/-- Witness for C5: a click with 5 members present issues nothing, and a
click with a single member and a non-empty email posts the add request
first. -/
theorem c5_add_member_guard_witness :
    (addMemberClick false "f@x.com" "" [⟨1, "a", none⟩, ⟨2, "b", none⟩,
      ⟨3, "c", none⟩, ⟨4, "d", none⟩, ⟨5, "e", none⟩] (.ok ())
      (.ok [])).requests = [] ∧
    (addMemberClick false "g@x.com" "" [⟨1, "a", none⟩] (.ok ())
      (.ok [])).requests.head? = some (addMemberReq "g@x.com" "") :=
  ⟨((c5_add_member_guard false "f@x.com" "" [⟨1, "a", none⟩, ⟨2, "b", none⟩,
      ⟨3, "c", none⟩, ⟨4, "d", none⟩, ⟨5, "e", none⟩] (.ok ())
      (.ok [])).1 (Or.inl (by decide))).2,
   ((c5_add_member_guard false "g@x.com" "" [⟨1, "a", none⟩] (.ok ())
      (.ok [])).2 (by decide) (by decide) rfl).2⟩

/-- C6: a successful add re-fetches the full list, issuing exactly the
member POST followed by the members GET; the remove handler never issues
a mutation without the trailing re-fetch GET; and none of the three
member-touching functions ever patches the list in place — after each
one, the `members` state is either unchanged or verbatim the body of a
successful GET response. -/
theorem c6_members_state_from_get_only (members : List Member)
    (getResp : Outcome (List Member)) :
    (∀ newEmail newPhone, newEmail ≠ "" →
      (handleAddMember newEmail newPhone members (.ok ()) getResp).requests =
        [addMemberReq newEmail newPhone, getMembersReq]) ∧
    (∀ memberId memberEmail confirmed deleteResp,
      (handleRemoveMember members memberId memberEmail confirmed deleteResp
        getResp).requests = [] ∨
      (handleRemoveMember members memberId memberEmail confirmed deleteResp
        getResp).requests.getLast? = some getMembersReq) ∧
    ((fetchMembers members getResp).members = members ∨
      ∃ data, getResp = .ok data ∧ (fetchMembers members getResp).members = data) ∧
    (∀ newEmail newPhone postResp,
      (handleAddMember newEmail newPhone members postResp getResp).members =
        members ∨
      ∃ data, getResp = .ok data ∧
        (handleAddMember newEmail newPhone members postResp getResp).members =
          data) ∧
    (∀ memberId memberEmail confirmed deleteResp,
      (handleRemoveMember members memberId memberEmail confirmed deleteResp
        getResp).members = members ∨
      ∃ data, getResp = .ok data ∧
        (handleRemoveMember members memberId memberEmail confirmed deleteResp
          getResp).members = data) := by
  refine ⟨?_, ?_, ?_, ?_, ?_⟩
  · intro newEmail newPhone h
    cases getResp <;> simp [handleAddMember, fetchMembers, h]
  · intro memberId memberEmail confirmed deleteResp
    left
    by_cases h1 : members.length ≤ 1 <;>
      simp [handleRemoveMember, h1]
  · cases getResp with
    | ok data => exact Or.inr ⟨data, rfl, rfl⟩
    | thrown e => exact Or.inl rfl
  · intro newEmail newPhone postResp
    by_cases h : newEmail = ""
    · left
      simp [handleAddMember, h]
    · cases postResp with
      | ok v =>
        cases getResp with
        | ok data =>
          exact Or.inr ⟨data, rfl, by simp [handleAddMember, fetchMembers, h]⟩
        | thrown e => left; simp [handleAddMember, fetchMembers, h]
      | thrown e => left; simp [handleAddMember, h]
  · intro memberId memberEmail confirmed deleteResp
    left
    by_cases h1 : members.length ≤ 1 <;>
      simp [handleRemoveMember, h1]

/-- Witness for C6: a successful add with one member present issues the
POST then the re-fetch GET, and the resulting list is the GET body. -/
theorem c6_members_state_from_get_only_witness :
    (handleAddMember "b@x.com" "" [⟨1, "a@x.com", none⟩] (.ok ())
      (.ok [⟨1, "a@x.com", none⟩, ⟨2, "b@x.com", none⟩])).requests =
      [addMemberReq "b@x.com" "", getMembersReq] ∧
    ((fetchMembers [⟨1, "a@x.com", none⟩]
      (.ok [⟨1, "a@x.com", none⟩, ⟨2, "b@x.com", none⟩])).members =
        [⟨1, "a@x.com", none⟩] ∨
      ∃ data, (Outcome.ok [⟨1, "a@x.com", none⟩, ⟨2, "b@x.com", none⟩] :
          Outcome (List Member)) = .ok data ∧
        (fetchMembers [⟨1, "a@x.com", none⟩]
          (.ok [⟨1, "a@x.com", none⟩, ⟨2, "b@x.com", none⟩])).members = data) :=
  ⟨(c6_members_state_from_get_only [⟨1, "a@x.com", none⟩]
      (.ok [⟨1, "a@x.com", none⟩, ⟨2, "b@x.com", none⟩])).1 "b@x.com" ""
      (by decide),
   (c6_members_state_from_get_only [⟨1, "a@x.com", none⟩]
      (.ok [⟨1, "a@x.com", none⟩, ⟨2, "b@x.com", none⟩])).2.2.1⟩

/-- C7: with a truthy cached token, startup issues exactly the
identity-lookup GET; on success the token is kept in storage and state,
the member email is taken from the response, and (for a non-empty
response email) the page is the dashboard; on failure the cached token is
removed from storage, the token state cleared, and the page is the login
view. -/
theorem c7_startup_token_revalidation (t : String) (ht : t ≠ "")
    (meResp : Outcome MeBody) :
    (startupAuth (some t) meResp).requests = [meReq] ∧
    (∀ m, meResp = .ok m →
      (startupAuth (some t) meResp).storedToken = some t ∧
      (startupAuth (some t) meResp).token = some t ∧
      (startupAuth (some t) meResp).memberEmail = m.email ∧
      (m.email ≠ "" → (startupAuth (some t) meResp).page = "dashboard")) ∧
    (∀ e, meResp = .thrown e →
      (startupAuth (some t) meResp).storedToken = none ∧
      (startupAuth (some t) meResp).token = none ∧
      (startupAuth (some t) meResp).page = "login") := by
  have htt : tokenTruthy (some t) = true := by simp [tokenTruthy, ht]
  refine ⟨?_, ?_, ?_⟩
  · cases meResp <;> simp [startupAuth, htt]
  · intro m hm
    subst hm
    refine ⟨by simp [startupAuth, htt], by simp [startupAuth, htt],
      by simp [startupAuth, htt], ?_⟩
    intro he
    simp [startupAuth, htt, pageAfterAuth, tokenTruthy, ht, he]
  · intro e he
    subst he
    refine ⟨by simp [startupAuth, htt], by simp [startupAuth, htt], ?_⟩
    simp [startupAuth, htt, pageAfterAuth, tokenTruthy, ht]

/-- Witness for C7 with the cached token `tok-xyz`, once revalidated
successfully as `a@x.com` and once rejected. -/
theorem c7_startup_token_revalidation_witness :
    (startupAuth (some "tok-xyz") (.ok ⟨"a@x.com"⟩)).requests = [meReq] ∧
    (startupAuth (some "tok-xyz") (.ok ⟨"a@x.com"⟩)).token = some "tok-xyz" ∧
    (startupAuth (some "tok-xyz") (.ok ⟨"a@x.com"⟩)).page = "dashboard" ∧
    (startupAuth (some "tok-xyz") (.thrown "401")).storedToken = none ∧
    (startupAuth (some "tok-xyz") (.thrown "401")).page = "login" :=
  ⟨(c7_startup_token_revalidation "tok-xyz" (by decide) (.ok ⟨"a@x.com"⟩)).1,
   ((c7_startup_token_revalidation "tok-xyz" (by decide)
      (.ok ⟨"a@x.com"⟩)).2.1 ⟨"a@x.com"⟩ rfl).2.1,
   ((c7_startup_token_revalidation "tok-xyz" (by decide)
      (.ok ⟨"a@x.com"⟩)).2.1 ⟨"a@x.com"⟩ rfl).2.2.2 (by decide),
   ((c7_startup_token_revalidation "tok-xyz" (by decide)
      (.thrown "401")).2.2 "401" rfl).1,
   ((c7_startup_token_revalidation "tok-xyz" (by decide)
      (.thrown "401")).2.2 "401" rfl).2.2⟩

/-- C8 counterexample: the claim that the displayed banner text equals
the thrown message fails on the add-member handler — when its API call
throws with message `boom`, the banner text is
`Failed to add member: boom`, not `boom`. -/
theorem c8_banner_exact_message_counterexample :
    (handleAddMember "x@y.com" "" [] (.thrown "boom") (.ok [])).message =
      some ⟨"error", "Failed to add member: boom"⟩ ∧
    "Failed to add member: boom" ≠ "boom" := by
  decide

/-- C8 (amended): for every reachable handler whose API call throws, the
banner shows an error whose text carries the thrown message — verbatim
for the OTP-request, OTP-verify and bill-generation handlers, and
embedded in a fixed context string for the member-fetch, member-add and
registration handlers — and every visible banner is scheduled to clear to
the empty message after the fixed 5000 ms delay. -/
theorem c8_banner_carries_thrown_message :
    (∀ email otpMode e, email ≠ "" →
      (handleRequestOtp email otpMode (.thrown e)).message =
        some ⟨"error", e⟩) ∧
    (∀ email otp e, otp.length = 6 →
      (handleVerifyOtp email otp (.thrown e)).message = some ⟨"error", e⟩) ∧
    (∀ members e, (fetchMembers members (.thrown e)).message =
      some ⟨"error", "Failed to load committee members: " ++ e⟩) ∧
    (∀ newEmail newPhone members getResp e, newEmail ≠ "" →
      (handleAddMember newEmail newPhone members (.thrown e) getResp).message =
        some ⟨"error", "Failed to add member: " ++ e⟩) ∧
    (∀ f e, (handleGenerateBills (some f) (.thrown e)).message =
      some ⟨"error", e⟩) ∧
    (∀ flatNo chatId e, flatNo ≠ "" → chatId ≠ "" →
      (handleRegister flatNo chatId (.thrown e)).message =
        some ⟨"error",
          "Registration failed: " ++ e ++ ". Ensure your Flat No is correct."⟩) ∧
    (∀ m : Message, m.text ≠ "" →
      notificationTimer m = some (5000, ⟨"", ""⟩)) := by
  refine ⟨?_, ?_, ?_, ?_, ?_, ?_, ?_⟩
  · intro email otpMode e h
    simp [handleRequestOtp, h]
  · intro email otp e h
    simp [handleVerifyOtp, h]
  · intro members e
    simp [fetchMembers]
  · intro newEmail newPhone members getResp e h
    simp [handleAddMember, h]
  · intro f e
    simp [handleGenerateBills]
  · intro flatNo chatId e h1 h2
    simp [handleRegister, h1, h2]
  · intro m h
    simp [notificationTimer, h]

/-- Witness for the amended C8, instantiating each handler with a thrown
call at a concrete input and the timer at a visible banner. -/
theorem c8_banner_carries_thrown_message_witness :
    (handleRequestOtp "a@x.com" false (.thrown "oops")).message =
      some ⟨"error", "oops"⟩ ∧
    (handleVerifyOtp "a@x.com" "123456" (.thrown "bad otp")).message =
      some ⟨"error", "bad otp"⟩ ∧
    (fetchMembers [] (.thrown "denied")).message =
      some ⟨"error", "Failed to load committee members: denied"⟩ ∧
    (handleAddMember "b@x.com" "" [] (.thrown "dup") (.ok [])).message =
      some ⟨"error", "Failed to add member: dup"⟩ ∧
    (handleGenerateBills (some "Water meter.xlsx") (.thrown "bad file")).message =
      some ⟨"error", "bad file"⟩ ∧
    (handleRegister "A-101" "123456789" (.thrown "no such flat")).message =
      some ⟨"error",
        "Registration failed: no such flat. Ensure your Flat No is correct."⟩ ∧
    notificationTimer ⟨"error", "oops"⟩ = some (5000, ⟨"", ""⟩) :=
  ⟨c8_banner_carries_thrown_message.1 "a@x.com" false "oops" (by decide),
   c8_banner_carries_thrown_message.2.1 "a@x.com" "123456" "bad otp" (by decide),
   c8_banner_carries_thrown_message.2.2.1 [] "denied",
   c8_banner_carries_thrown_message.2.2.2.1 "b@x.com" "" [] (.ok []) "dup"
     (by decide),
   c8_banner_carries_thrown_message.2.2.2.2.1 "Water meter.xlsx" "bad file",
   c8_banner_carries_thrown_message.2.2.2.2.2.1 "A-101" "123456789"
     "no such flat" (by decide) (by decide),
   c8_banner_carries_thrown_message.2.2.2.2.2.2 ⟨"error", "oops"⟩ (by decide)⟩

/-- C9: with both fields non-empty, a failing register call leaves the
flat-number and chat-ID field states exactly as they were and only sets
an error banner, and the two fields are cleared to empty exactly when the
call succeeds. -/
theorem c9_register_fields_atomicity (flatNo chatId : String)
    (resp : Outcome Unit) (h1 : flatNo ≠ "") (h2 : chatId ≠ "") :
    (∀ e, resp = .thrown e →
      (handleRegister flatNo chatId resp).flatNo = flatNo ∧
      (handleRegister flatNo chatId resp).chatId = chatId ∧
      (handleRegister flatNo chatId resp).message =
        some ⟨"error",
          "Registration failed: " ++ e ++ ". Ensure your Flat No is correct."⟩) ∧
    (((handleRegister flatNo chatId resp).flatNo = "" ∧
      (handleRegister flatNo chatId resp).chatId = "") ↔ resp = .ok ()) := by
  constructor
  · intro e he
    subst he
    refine ⟨?_, ?_, ?_⟩ <;> simp [handleRegister, h1, h2]
  · cases resp with
    | ok v => simp [handleRegister, h1, h2]
    | thrown e => simp [handleRegister, h1, h2]

/-- Witness for C9 at the flat `A-101` with chat ID `123456789`, once
with a thrown call and once with a successful one. -/
theorem c9_register_fields_atomicity_witness :
    (handleRegister "A-101" "123456789" (.thrown "no such flat")).flatNo =
      "A-101" ∧
    (handleRegister "A-101" "123456789" (.thrown "no such flat")).chatId =
      "123456789" ∧
    (((handleRegister "A-101" "123456789" (.ok ())).flatNo = "" ∧
      (handleRegister "A-101" "123456789" (.ok ())).chatId = "") ↔
      (Outcome.ok () : Outcome Unit) = .ok ()) :=
  ⟨((c9_register_fields_atomicity "A-101" "123456789" (.thrown "no such flat")
      (by decide) (by decide)).1 "no such flat" rfl).1,
   ((c9_register_fields_atomicity "A-101" "123456789" (.thrown "no such flat")
      (by decide) (by decide)).1 "no such flat" rfl).2.1,
   (c9_register_fields_atomicity "A-101" "123456789" (.ok ())
      (by decide) (by decide)).2⟩

end AptBill
